import Mathlib

/-!
Verification of the scheduling and orchestration core of the database
backup utility, against its natural-language specification.

The definitions below are a shallow embedding of the Python sources under
`backup_core/`: each Lean definition names the function or code block it
embeds.  Machine integers are modelled by `Nat`/`Int`; timestamps are
seconds since the Unix epoch (`Nat` for the cron evaluator, `Int` for
schedule rows); Python `dict`s of connection parameters are association
lists; exceptions are `Option`/`Except`.  String helpers (`strip`,
`split`, `int(...)`) are spelled out structurally on `List Char` so that
every definition evaluates inside the kernel.
-/

/-! ## String helpers (Python `str.strip` / `str.split` / `int`) -/

/-- Python `str.strip()`: drop whitespace from both ends. -/
def stripChars (cs : List Char) : List Char :=
  (((cs.dropWhile Char.isWhitespace).reverse).dropWhile Char.isWhitespace).reverse

/-- Auxiliary splitter: split at every character satisfying `p`. -/
def splitByAux (p : Char → Bool) : List Char → List Char → List (List Char)
  | [], acc => [acc.reverse]
  | c :: rest, acc =>
      if p c then acc.reverse :: splitByAux p rest []
      else splitByAux p rest (c :: acc)

/-- Python `s.split(sep)` for a one-character separator (keeps empties). -/
def splitOnChar (sep : Char) (cs : List Char) : List (List Char) :=
  splitByAux (· = sep) cs []

/-- Python `s.split()` with no separator: split on whitespace runs,
dropping empty pieces. -/
def splitWhitespace (cs : List Char) : List (List Char) :=
  (splitByAux Char.isWhitespace cs []).filter (· ≠ [])

/-- Split at the first occurrence of `sep`, Python `s.split(sep, 1)`
when `sep` occurs; `none` when it does not (callers test `sep in s`). -/
def splitFirst (sep : Char) : List Char → Option (List Char × List Char)
  | [] => none
  | c :: rest =>
      if c = sep then some ([], rest)
      else (splitFirst sep rest).map (fun p => (c :: p.1, p.2))

/-- Decimal digits to a number; `none` on empties or non-digits. -/
def digitsToNat : List Char → Option Nat
  | [] => none
  | cs => cs.foldlM
      (fun acc c =>
        if c.isDigit then some (acc * 10 + (c.toNat - '0'.toNat)) else none)
      0

/-- Python `int(text)` on the tokens the cron parser feeds it (no inner
whitespace, optional sign); `none` models `ValueError`. -/
def parseIntChars : List Char → Option Int
  | '-' :: rest => (digitsToNat rest).map (fun n => -(n : Int))
  | '+' :: rest => (digitsToNat rest).map (fun n => (n : Int))
  | cs => (digitsToNat cs).map (fun n => (n : Int))

/-- `range(start, stop + 1, step)` from Python, as a list (fuel = width). -/
def rangeStepAux (step : Nat) : Nat → Nat → Nat → List Nat
  | 0, _, _ => []
  | fuel + 1, current, stop =>
      if current ≤ stop then current :: rangeStepAux step fuel (current + step) stop
      else []

/-- Python `range(start, stop + 1, step)` for `step ≥ 1`. -/
def rangeStep (start stop step : Nat) : List Nat :=
  rangeStepAux step (stop + 1 - start) start stop

/-! ## Cron evaluator — `backup_core/scheduler.py`, lines 81–205 -/

/-- One iteration of the `for chunk in field.split(",")` loop of
`_parse_cron_field` (`scheduler.py` 160–193): parse the optional `/step`,
then `*` / a range `a-b` / a single integer, check the bounds, and add
`range(start, end + 1, step)` to the accumulated values. -/
def parseCronChunk (minimum maximum : Nat) (acc : List Nat)
    (chunk0 : List Char) : Option (List Nat) := do
  let chunk := stripChars chunk0
  if chunk = [] then none
  else do
    let (base, step) ← (
      match splitFirst '/' chunk with
      | some (b, stepText) => do
          let step ← parseIntChars stepText
          if step ≤ 0 then none else some (b, step.toNat)
      | none => some (chunk, 1))
    let (start, stop) ← (
      if base = ['*'] then some ((minimum : Int), (maximum : Int))
      else match splitFirst '-' base with
      | some (s1, s2) => do
          let a ← parseIntChars s1
          let b ← parseIntChars s2
          if a > b then none else some (a, b)
      | none => do
          let a ← parseIntChars base
          some (a, a))
    if start < (minimum : Int) || stop > (maximum : Int) then none
    else some (acc ++ rangeStep start.toNat stop.toNat step)

/-- Embeds `_parse_cron_field` (`scheduler.py` 151–197) on the stripped
field text.  Returns `(is_star, values)`; `none` where the Python raises
`ValueError`.  Sets are lists, membership-equivalent to the Python `set`. -/
def parseCronFieldStripped (field : List Char) (minimum maximum : Nat) :
    Option (Bool × List Nat) :=
  if field = [] then none
  else if field = ['*'] then some (true, rangeStep minimum maximum 1)
  else
    match (splitOnChar ',' field).foldlM (parseCronChunk minimum maximum) [] with
    | none => none
    | some values => if values = [] then none else some (false, values)

/-- Embeds `_parse_cron_field`: `field = field.strip()` first, then the
body (`parseCronFieldStripped`). -/
def parseCronField (field0 : List Char) (minimum maximum : Nat) :
    Option (Bool × List Nat) :=
  parseCronFieldStripped (stripChars field0) minimum maximum

/-- Normalization of day-of-week `7` to `0` (`scheduler.py` 144–146):
if `7` is in the set it is removed and `0` is added. -/
def normalizeDowSet (dowSet : List Nat) : List Nat :=
  if dowSet.contains 7 then 0 :: dowSet.filter (· ≠ 7) else dowSet

/-- The alias table of `_parse_cron_expression` (`scheduler.py` 122–130). -/
def cronAliases : List (String × String) :=
  [("@yearly", "0 0 1 1 *"), ("@annually", "0 0 1 1 *"),
   ("@monthly", "0 0 1 * *"), ("@weekly", "0 0 * * 0"),
   ("@daily", "0 0 * * *"), ("@midnight", "0 0 * * *"),
   ("@hourly", "0 * * * *")]

/-- `aliases.get(expression, expression)` on the stripped expression. -/
def applyCronAlias (cs : List Char) : List Char :=
  match cronAliases.find? (fun kv => kv.1.toList = cs) with
  | some kv => kv.2.toList
  | none => cs

/-- The parsed form of a 5-field cron expression, as returned by
`_parse_cron_expression`: the five value sets plus the two `*` flags that
the day predicate consumes. -/
structure CronSpec where
  minuteSet : List Nat
  hourSet : List Nat
  domSet : List Nat
  monthSet : List Nat
  dowSet : List Nat
  domAny : Bool
  dowAny : Bool
deriving DecidableEq

/-- Embeds `_parse_cron_expression` (`scheduler.py` 121–148). -/
def parseCronExpression (expression : String) : Option CronSpec :=
  let stripped := applyCronAlias (stripChars expression.toList)
  match splitWhitespace stripped with
  | [p0, p1, p2, p3, p4] => do
      let (_, minuteSet) ← parseCronField p0 0 59
      let (_, hourSet) ← parseCronField p1 0 23
      let (domAny, domSet) ← parseCronField p2 1 31
      let (_, monthSet) ← parseCronField p3 1 12
      let (dowAny, dowSet0) ← parseCronField p4 0 7
      some { minuteSet := minuteSet, hourSet := hourSet, domSet := domSet,
             monthSet := monthSet, dowSet := normalizeDowSet dowSet0,
             domAny := domAny, dowAny := dowAny }
  | _ => none

/-- Embeds `_day_matches` (`scheduler.py` 108–118). -/
def dayMatches (day cronDow : Nat) (domSet dowSet : List Nat)
    (domAny dowAny : Bool) : Bool :=
  let domMatch := domSet.contains day
  let dowMatch := dowSet.contains cronDow
  if domAny && dowAny then true
  else if domAny then dowMatch
  else if dowAny then domMatch
  else domMatch || dowMatch

/-- Gregorian civil date `(year, month, day)` from days since the Unix
epoch: the calendar arithmetic Python's `datetime` performs for the
`cursor.month` / `cursor.day` accesses in `get_next_run_at`. -/
def civilFromDays (days : Nat) : Nat × Nat × Nat :=
  let z := days + 719468
  let era := z / 146097
  let doe := z % 146097
  let yoe := (doe - doe / 1460 + doe / 36524 - doe / 146096) / 365
  let doy := doe - (365 * yoe + yoe / 4 - yoe / 100)
  let mp := (5 * doy + 2) / 153
  let d := doy - (153 * mp + 2) / 5 + 1
  let m := if mp < 10 then mp + 3 else mp - 9
  (yoe + era * 400 + (if m ≤ 2 then 1 else 0), m, d)

/-- `cursor.month` for a timestamp in seconds. -/
def monthOf (t : Nat) : Nat := (civilFromDays (t / 86400)).2.1

/-- `cursor.day` for a timestamp in seconds. -/
def dayOfMonth (t : Nat) : Nat := (civilFromDays (t / 86400)).2.2

/-- `cursor.hour` for a timestamp in seconds (UTC). -/
def hourOf (t : Nat) : Nat := t / 3600 % 24

/-- `cursor.minute` for a timestamp in seconds. -/
def minuteOf (t : Nat) : Nat := t / 60 % 60

/-- `(cursor.weekday() + 1) % 7` (`scheduler.py` line 90): cron's
Sunday=0 day-of-week.  Day 0 (1970-01-01) was a Thursday, cron value 4. -/
def cronDowOf (t : Nat) : Nat := (t / 86400 + 4) % 7

/-- The per-minute test of the `get_next_run_at` loop body
(`scheduler.py` 90–102): month, hour, minute, then the day predicate. -/
def cronMatchesAt (s : CronSpec) (t : Nat) : Bool :=
  s.monthSet.contains (monthOf t) && s.hourSet.contains (hourOf t) &&
    s.minuteSet.contains (minuteOf t) &&
    dayMatches (dayOfMonth t) (cronDowOf t) s.domSet s.dowSet s.domAny s.dowAny

/-- The minute-stepping search loop of `get_next_run_at`
(`scheduler.py` 89–103), fuel = remaining loop iterations. -/
def nextRunSearch (s : CronSpec) : Nat → Nat → Option Nat
  | 0, _ => none
  | fuel + 1, cursor =>
      if cronMatchesAt s cursor then some cursor
      else nextRunSearch s fuel (cursor + 60)

/-- `max_minutes = 60 * 24 * 366` (`scheduler.py` line 87). -/
def maxSearchMinutes : Nat := 60 * 24 * 366

/-- Embeds `get_next_run_at` (`scheduler.py` 81–105): truncate `after`
to the whole minute, advance one minute, then scan.  `none` models the
`ValueError` raised on a bad expression or an exhausted search window. -/
def getNextRunAt (expr : String) (after : Nat) : Option Nat :=
  match parseCronExpression expr with
  | none => none
  | some s => nextRunSearch s maxSearchMinutes (60 * (after / 60) + 60)

/-- "The instant is a whole minute matching `e`": the loop-body test of
`get_next_run_at` applied to the parse of `e`. -/
def matchesCronExpr (e : String) (t : Nat) : Bool :=
  match parseCronExpression e with
  | some s => cronMatchesAt s t
  | none => false

/-! ## Schedule rows and scheduler core — `backup_core/models.py` and
`backup_core/scheduler.py`, lines 10–78 -/

/-- A `Schedule` row (`models.py` 114–128).  `PositiveIntegerField`s are
`Nat`; nullable datetimes are `Option Int` (epoch seconds).  The model
`Meta` declares `ordering = ["-created_at"]`. -/
structure ScheduleRow where
  is_active : Bool
  cron_expression : String
  max_retries : Nat
  retry_backoff_seconds : Nat
  retry_count : Nat
  last_run_at : Option Int
  next_run_at : Option Int
  lease_expires_at : Option Int
  last_error : String
  created_at : Int
deriving DecidableEq

/-- The due predicate of `get_due_schedules` (`scheduler.py` 10–16):
`is_active ∧ (next_run_at is null ∨ ≤ now) ∧ (lease_expires_at is null ∨ ≤ now)`. -/
def isDue (now : Int) (s : ScheduleRow) : Bool :=
  s.is_active &&
    (match s.next_run_at with | none => true | some t => t ≤ now) &&
    (match s.lease_expires_at with | none => true | some t => t ≤ now)

/-- The row order Django applies to the queryset: the model's
`Meta.ordering = ["-created_at"]`, i.e. descending `created_at`. -/
def createdDescOrder (a b : ScheduleRow) : Prop := b.created_at ≤ a.created_at

instance : DecidableRel createdDescOrder := fun _ _ => Int.decLe _ _

/-- Embeds `get_due_schedules` (`scheduler.py` 10–16) over a table of
rows: the due subset, in the default model ordering (`-created_at`). -/
def getDueSchedules (now : Int) (rows : List ScheduleRow) : List ScheduleRow :=
  List.insertionSort createdDescOrder (rows.filter (isDue now))

/-- Spec-side ordering check (from the spec's words, for refinement
comparison only): "ordered by ascending `next_run_at` (nulls first)". -/
def sortedByNextRunAscSpec : List ScheduleRow → Bool
  | [] => true
  | [_] => true
  | a :: b :: rest =>
      (match a.next_run_at, b.next_run_at with
       | none, _ => true
       | some _, none => false
       | some x, some y => x ≤ y) && sortedByNextRunAscSpec (b :: rest)

/-- Pairwise check that a list is ordered by descending `created_at`. -/
def sortedByCreatedDescB : List ScheduleRow → Bool
  | [] => true
  | [_] => true
  | a :: b :: rest => (b.created_at ≤ a.created_at) && sortedByCreatedDescB (b :: rest)

/-- Embeds `claim_schedule` (`scheduler.py` 19–31) on the single row it
targets.  Returns `(returned schedule or none, row afterwards)`.  The
guarded SQL `UPDATE` translates to: if the row passes the filter
(`is_active` and lease null-or-expired) the lease is written and the row
is returned, else zero rows are affected and `None` is returned. -/
def claimSchedule (s : ScheduleRow) (leaseSeconds : Int) (now : Int) :
    Option ScheduleRow × ScheduleRow :=
  let leaseUntil := now + max leaseSeconds 1
  if s.is_active &&
      (match s.lease_expires_at with | none => true | some t => t ≤ now) then
    let updated := { s with lease_expires_at := some leaseUntil }
    (some updated, updated)
  else
    (none, s)

/-- Embeds `_retry_delay_seconds` (`scheduler.py` 74–78). -/
def retryDelaySeconds (baseSeconds : Nat) (attempt : Nat) : Nat :=
  let base := max baseSeconds 1
  let exponent := attempt - 1
  min (base * 2 ^ exponent) 3600

/-- Python `(text or "").strip()[:4000]`, spelled structurally. -/
def stripTruncate4000 (msg : String) : String :=
  String.mk ((stripChars msg.toList).take 4000)

/-- Python `str(exc)[:4000]`, spelled structurally. -/
def truncate4000 (msg : String) : String :=
  String.mk (msg.toList.take 4000)

/-- The dict returned by `mark_schedule_failed`. -/
structure MarkFailedResult where
  state : String
  attempt : Nat
  maxRetriesOut : Nat
  delay_seconds : Nat
  next_run_at : Option Int
deriving DecidableEq

/-- Embeds `mark_schedule_failed` (`scheduler.py` 43–71).  Returns the
result dict and the saved row.  `(error_message or "").strip()[:4000]`
becomes `trim` then `take 4000`. -/
def markScheduleFailed (s : ScheduleRow) (errorMessage : String)
    (nextRunAt : Option Int) (now : Int) : MarkFailedResult × ScheduleRow :=
  let attempt := s.retry_count + 1
  let maxRetries := s.max_retries
  let lastError := stripTruncate4000 errorMessage
  if attempt ≤ maxRetries then
    let delay := retryDelaySeconds s.retry_backoff_seconds attempt
    let saved := { s with
      retry_count := attempt,
      next_run_at := some (now + (delay : Int)),
      last_error := lastError,
      lease_expires_at := none }
    ({ state := "retrying", attempt := attempt, maxRetriesOut := maxRetries,
       delay_seconds := delay, next_run_at := saved.next_run_at }, saved)
  else
    let saved := { s with
      retry_count := 0,
      next_run_at := nextRunAt,
      last_error := lastError,
      lease_expires_at := none }
    ({ state := "next_cron", attempt := attempt, maxRetriesOut := maxRetries,
       delay_seconds := 0, next_run_at := nextRunAt }, saved)

/-- The dry-run path of the scheduler pass for one claimed schedule
(`run_scheduler.py` `_run_schedule` 152–170 with `dry_run=True`, and the
invalid-cron recovery of `_run_pass` 116–129): when the cron evaluates,
only the lease is released; when the cron is invalid, the schedule is
deactivated, `last_error` recorded, and the lease released. -/
def runScheduleDryRun (s : ScheduleRow) (now : Nat) : ScheduleRow :=
  match getNextRunAt s.cron_expression now with
  | some _ => { s with lease_expires_at := none }
  | none =>
      { s with
        is_active := false,
        last_error := truncate4000 ("Invalid cron for schedule (" ++ s.cron_expression ++ ")"),
        lease_expires_at := none }

/-! ## Adapter capability flags — `backup_core/base.py`, lines 11–56, and
the `backup` entry checks of the four adapters -/

/-- The class attributes of `DatabaseAdapter` governing backup types
(`base.py` 13–16). -/
structure AdapterFlags where
  supports_incremental : Bool
  supports_differential : Bool
  fallback_incremental_to_full : Bool
  fallback_differential_to_full : Bool
deriving DecidableEq

/-- The `DatabaseAdapter` defaults (`base.py` 13–16); none of the four
adapters overrides these four attributes. -/
def defaultAdapterFlags : AdapterFlags :=
  { supports_incremental := false, supports_differential := false,
    fallback_incremental_to_full := true, fallback_differential_to_full := true }

/-- Embeds `DatabaseAdapter.validate_backup_type` (`base.py` 39–48). -/
def validateBackupType (f : AdapterFlags) (backupType : String) :
    Except String Unit :=
  if ¬ (backupType = "full" || backupType = "incremental" || backupType = "differential") then
    .error ("Unsupported backup type " ++ backupType)
  else if backupType = "incremental" && !f.supports_incremental &&
      !f.fallback_incremental_to_full then
    .error "incremental not supported"
  else if backupType = "differential" && !f.supports_differential &&
      !f.fallback_differential_to_full then
    .error "differential not supported"
  else
    .ok ()

/-- Embeds `DatabaseAdapter.effective_backup_type` (`base.py` 50–56). -/
def effectiveBackupType (f : AdapterFlags) (backupType : String) :
    Except String String :=
  match validateBackupType f backupType with
  | .error e => .error e
  | .ok _ =>
      if backupType = "incremental" && !f.supports_incremental then .ok "full"
      else if backupType = "differential" && !f.supports_differential then .ok "full"
      else .ok backupType

/-- The backup-type gate of `SQLiteAdapter.backup` (`sqlite_adapter.py`
line 49): `effective_backup_type` is consulted and the backup proceeds as
a full snapshot. -/
def sqliteBackupTypeGate (backupType : String) : Except String String :=
  effectiveBackupType defaultAdapterFlags backupType

/-- The backup-type gate of `PostgresAdapter.backup`
(`postgres_adapter.py` line 41): same shape as SQLite. -/
def postgresBackupTypeGate (backupType : String) : Except String String :=
  effectiveBackupType defaultAdapterFlags backupType

/-- The backup-type gate of `MySQLAdapter.backup` (`mysql_adapter.py`
40–42): `validate_backup_type`, then an unconditional rejection of any
non-`full` type. -/
def mysqlBackupTypeGate (backupType : String) : Except String String :=
  match validateBackupType defaultAdapterFlags backupType with
  | .error e => .error e
  | .ok _ =>
      if backupType ≠ "full" then
        .error "MySQL adapter currently supports only full backup."
      else .ok "full"

/-- The backup-type gate of `MongoAdapter.backup` (`mongo_adapter.py`
59–61): `validate_backup_type`, then an unconditional rejection of any
non-`full` type. -/
def mongoBackupTypeGate (backupType : String) : Except String String :=
  match validateBackupType defaultAdapterFlags backupType with
  | .error e => .error e
  | .ok _ =>
      if backupType ≠ "full" then
        .error "MongoDB adapter currently supports only full backup."
      else .ok "full"

/-! ## Secret redaction — `backup_db.py` 155–205 and `restore_db.py`
45–46, 160–176 -/

/-- A JSON-ish connection-parameter value: string, integer, or boolean. -/
inductive PValue where
  | s (v : String)
  | i (v : Int)
  | b (v : Bool)
deriving DecidableEq

/-- Python truthiness for the values that reach `_redact`. -/
def PValue.truthy : PValue → Bool
  | .s v => v ≠ ""
  | .i v => v ≠ 0
  | .b v => v

/-- The CLI connection options shared by `backup_db` and `restore_db`
(`--db-path --host --port --username --password --database --uri`). -/
structure ConnOptions where
  db_path : Option String
  host : Option String
  port : Option Int
  username : Option String
  password : Option String
  database : Option String
  uri : Option String
deriving DecidableEq

/-- One iteration of the `_build_connection_params` loop: include the
entry when the value is neither `None` nor `""`. -/
def optEntry (key : String) (v : Option String) : List (String × PValue) :=
  match v with
  | some s => if s = "" then [] else [(key, .s s)]
  | none => []

/-- Embeds `_build_connection_params` (`backup_db.py` 155–164, identical
in `restore_db.py` 160–169): iterate the fixed key list, skip `None` and
`""`, rename `db_path` to `path`. -/
def buildConnectionParams (o : ConnOptions) : List (String × PValue) :=
  optEntry "path" o.db_path ++ optEntry "host" o.host ++
    (match o.port with | some n => [("port", .i n)] | none => []) ++
    optEntry "username" o.username ++ optEntry "password" o.password ++
    optEntry "database" o.database ++ optEntry "uri" o.uri

/-- The shared shape of the two `_redact` helpers: replace the value of
every listed key that is present and truthy by `"***"`. -/
def redactKeys (ks : List String) (params : List (String × PValue)) :
    List (String × PValue) :=
  params.map (fun kv => if ks.contains kv.1 && kv.2.truthy then (kv.1, .s "***") else kv)

/-- Embeds `backup_db.Command._redact` (`backup_db.py` 200–205). -/
def backupRedact : List (String × PValue) → List (String × PValue) :=
  redactKeys ["password", "uri", "token", "secret", "azure_connection_string"]

/-- Embeds `restore_db.Command._redact` (`restore_db.py` 171–176); note
the shorter key list. -/
def restoreRedact : List (String × PValue) → List (String × PValue) :=
  redactKeys ["password", "uri", "token", "secret"]

/-- The mapping persisted as `BackupJob.connection_params`
(`backup_db.py` line 65): `_redact(_build_connection_params(options))`. -/
def persistedBackupConnectionParams (o : ConnOptions) : List (String × PValue) :=
  backupRedact (buildConnectionParams o)

/-- The restore command's connection params before redaction
(`restore_db.py` 44–46): built params plus `allow_create = True` for
SQLite targets. -/
def restoreConnectionParams (o : ConnOptions) (dbType : String) :
    List (String × PValue) :=
  buildConnectionParams o ++
    (if dbType = "sqlite" then [("allow_create", .b true)] else [])

/-- The mapping persisted as `RestoreJob.target_params`
(`restore_db.py` line 63): `_redact` of the restore connection params. -/
def persistedRestoreTargetParams (o : ConnOptions) (dbType : String) :
    List (String × PValue) :=
  restoreRedact (restoreConnectionParams o dbType)

/-- The sensitive key list named by the specification. -/
def sensitiveKeys : List String :=
  ["password", "uri", "token", "secret", "azure_connection_string"]

/-! ## Restore command control flow — `restore_db.py` 39–129, 178–187 -/

/-- The settings the restore-self check reads: the metadata database name
(`settings.DATABASES["default"]["NAME"]`) and the optional
`TARGET_SQLITE_DB_PATH`. -/
structure RestoreSettings where
  metadataDbName : String
  targetSqliteDbPath : Option String
deriving DecidableEq

/-- `getattr(settings, "TARGET_SQLITE_DB_PATH", settings.DATABASES["default"]["NAME"])`. -/
def defaultTargetRaw (st : RestoreSettings) : String :=
  st.targetSqliteDbPath.getD st.metadataDbName

/-- Embeds `_is_restoring_metadata_db` (`restore_db.py` 178–187).
`resolve` abstracts `Path(...).resolve()`.  `paramsPath` is
`connection_params.get("path")`; the `or` falls back to the resolved
default when the path is missing or empty. -/
def isRestoringMetadataDb (resolve : String → String) (st : RestoreSettings)
    (dbType : String) (paramsPath : Option String) : Bool :=
  if dbType ≠ "sqlite" then false
  else
    let metadataDbPath := resolve st.metadataDbName
    let defaultTargetPath := resolve (defaultTargetRaw st)
    let targetDbPath := resolve
      (match paramsPath with
       | some p => if p = "" then defaultTargetPath else p
       | none => defaultTargetPath)
    targetDbPath = metadataDbPath

/-- The observable persistence/adapter events of `restore_db.Command.handle`. -/
inductive RestoreEvent where
  | createdRestoreJob
  | adapterTestConnection
  | adapterRestore
deriving DecidableEq

/-- The event trace of `restore_db.Command.handle` (`restore_db.py`
39–129): when the backup source does not resolve, `CommandError` is
raised before anything happens; otherwise the `RestoreJob` row is created
first (lines 59–67) unless the target is the metadata DB, and the adapter
steps follow inside the `try` block.  `stepsReached` counts how many
adapter steps complete or start before an exception, `2` meaning
`adapter.restore` was invoked. -/
def restoreHandleTrace (sourceResolved : Bool) (restoringMetadataDb : Bool)
    (stepsReached : Nat) : List RestoreEvent :=
  if sourceResolved then
    (if restoringMetadataDb then [] else [RestoreEvent.createdRestoreJob]) ++
      ([RestoreEvent.adapterTestConnection, RestoreEvent.adapterRestore].take stepsReached)
  else []

/-! ## SQLite restore — `backup_core/sqlite_adapter.py` 72–103 -/

/-- The slice of the file system `SQLiteAdapter.restore` touches:
contents (or absence) of the backup file, the target database file, and
the temporary sibling created by `mkstemp`. -/
structure SqliteFsState where
  backupFile : Option String
  targetFile : Option String
  tmpFile : Option String
deriving DecidableEq

/-- Outcome of `SQLiteAdapter.restore`: the error raised (if any) and
the file system afterwards. -/
structure SqliteRestoreOutcome where
  adapterError : Option String
  fs : SqliteFsState
deriving DecidableEq

/-- Embeds `SQLiteAdapter.restore` (`sqlite_adapter.py` 72–103) for a
backup path distinct from or equal to the target (`samePath`), with
`copyOk` the oracle for whether the `sqlite3` page copy into the
temporary file succeeds.  Mirrors the source: missing backup file raises;
same path returns untouched; otherwise `mkstemp` creates the temporary
file, a successful copy is followed by `os.replace(tmp, target)`, and a
`sqlite3.Error` removes the temporary file and raises `AdapterError`. -/
def sqliteRestore (fs : SqliteFsState) (samePath : Bool) (copyOk : Bool) :
    SqliteRestoreOutcome :=
  match fs.backupFile with
  | none => { adapterError := some "Backup file not found", fs := fs }
  | some content =>
      if samePath then { adapterError := none, fs := fs }
      else
        let fsTmp := { fs with tmpFile := some "" }
        if copyOk then
          { adapterError := none,
            fs := { fsTmp with tmpFile := none, targetFile := some content } }
        else
          { adapterError := some "SQLite restore failed",
            fs := { fsTmp with tmpFile := none } }

/-! ## Concrete instances used by counterexamples and witnesses -/

/-- The parse of `"0 0 31 2 *"` (February 31st — never a real date). -/
def cronSpecFeb31 : CronSpec :=
  { minuteSet := [0], hourSet := [0], domSet := [31], monthSet := [2],
    dowSet := [0, 0, 1, 2, 3, 4, 5, 6], domAny := false, dowAny := true }

/-- An active schedule row with no lease and no pending run. -/
def unleasedActiveRow : ScheduleRow :=
  { is_active := true, cron_expression := "*/5 * * * *", max_retries := 3,
    retry_backoff_seconds := 60, retry_count := 0, last_run_at := none,
    next_run_at := none, lease_expires_at := none, last_error := "",
    created_at := 0 }

/-- A schedule row with `retry_backoff_seconds = 0` (allowed by the
`PositiveIntegerField`, which admits zero). -/
def backoffZeroRow : ScheduleRow :=
  { unleasedActiveRow with retry_backoff_seconds := 0, lease_expires_at := some 40 }

/-- A schedule row with the documented retry defaults. -/
def retryLadderRow : ScheduleRow :=
  { unleasedActiveRow with cron_expression := "0 * * * *" }

/-- Due row created at time 1 whose next run is at 5. -/
def rowA : ScheduleRow :=
  { unleasedActiveRow with created_at := 1, next_run_at := some 5 }

/-- Due row created at time 2 whose next run is at 10. -/
def rowB : ScheduleRow :=
  { unleasedActiveRow with created_at := 2, next_run_at := some 10 }

/-- Concrete CLI connection options carrying a host and a password. -/
def sampleConnOptions : ConnOptions :=
  { db_path := none, host := some "h", port := some 5432,
    username := some "u", password := some "secretpw", database := some "d",
    uri := none }

/-- Restore settings whose target defaults to the metadata database. -/
def sampleRestoreSettings : RestoreSettings :=
  { metadataDbName := "/app/db.sqlite3", targetSqliteDbPath := none }

/-- A file system with an existing backup file and an existing target. -/
def sampleSqliteFs : SqliteFsState :=
  { backupFile := some "backup-bytes", targetFile := some "old-bytes",
    tmpFile := none }

/-! ## Helper lemmas -/

theorem nextRunSearch_eq_some {s : CronSpec} :
    ∀ (fuel cursor r : Nat), nextRunSearch s fuel cursor = some r →
      cronMatchesAt s r = true ∧ cursor ≤ r ∧ (r - cursor) % 60 = 0 := by
  intro fuel
  induction fuel with
  | zero => intro cursor r h; simp [nextRunSearch] at h
  | succ n ih =>
      intro cursor r h
      by_cases hm : cronMatchesAt s cursor = true
      · simp [nextRunSearch, hm] at h
        subst h
        exact ⟨hm, le_refl _, by simp⟩
      · have hm' : cronMatchesAt s cursor = false := by
          simpa using hm
        simp [nextRunSearch, hm'] at h
        obtain ⟨h1, h2, h3⟩ := ih (cursor + 60) r h
        refine ⟨h1, by omega, by omega⟩

theorem nextRunSearch_head {s : CronSpec} (fuel cursor : Nat)
    (h : cronMatchesAt s cursor = true) :
    nextRunSearch s (fuel + 1) cursor = some cursor := by
  simp [nextRunSearch, h]

theorem nextRunSearch_none_of_no_match {s : CronSpec}
    (hnm : ∀ t, cronMatchesAt s t = false) :
    ∀ fuel cursor, nextRunSearch s fuel cursor = none := by
  intro fuel
  induction fuel with
  | zero => intro cursor; rfl
  | succ n ih => intro cursor; simp [nextRunSearch, hnm, ih]

/-- In the embedded Gregorian calendar, a timestamp in month 2 (February)
always has day-of-month at most 30 (the claim needs only this bound). -/
theorem dayOfMonth_le_of_month_two (t : Nat) (h : monthOf t = 2) :
    dayOfMonth t ≤ 30 := by
  unfold monthOf at h
  unfold dayOfMonth
  simp only [civilFromDays] at h ⊢
  split_ifs at h <;> omega

theorem cronSpecFeb31_no_match (t : Nat) : cronMatchesAt cronSpecFeb31 t = false := by
  by_cases hm : monthOf t = 2
  · have hd : dayOfMonth t ≤ 30 := dayOfMonth_le_of_month_two t hm
    have hdom : dayMatches (dayOfMonth t) (cronDowOf t) [31] [0, 0, 1, 2, 3, 4, 5, 6]
        false true = false := by
      unfold dayMatches
      simp only [Bool.false_and, Bool.false_eq_true, if_false, if_true, cond]
      simp [List.contains]
      omega
    simp [cronMatchesAt, cronSpecFeb31, hdom]
  · simp [cronMatchesAt, cronSpecFeb31]
    intro h
    exact absurd h hm

/-! ## Claim C1 — cron evaluator next-run contract -/

/-- **C1, counterexample.**  `"0 0 31 2 *"` passes every validation rule
of `_parse_cron_expression` (it is a valid 5-field expression), yet
`get_next_run_at` finds no matching minute in its one-year window and
raises instead of returning an instant greater than `t`: the claim fails
as universally stated. -/
theorem c1_counterexample :
    (parseCronExpression "0 0 31 2 *").isSome = true ∧
    getNextRunAt "0 0 31 2 *" 0 = none := by
  constructor
  · rfl
  · have hp : parseCronExpression "0 0 31 2 *" = some cronSpecFeb31 := by rfl
    unfold getNextRunAt
    rw [hp]
    exact nextRunSearch_none_of_no_match (fun t => cronSpecFeb31_no_match t) _ _

/-- **C1, amended.**  Whenever `get_next_run_at e t` returns an instant
`r` (rather than raising), `r` is strictly greater than `t`, is a whole
minute, matches `e`, and evaluating again one second before `r` returns
`r` itself. -/
theorem c1_next_run_contract (e : String) (t r : Nat)
    (h : getNextRunAt e t = some r) :
    t < r ∧ r % 60 = 0 ∧ matchesCronExpr e r = true ∧
    getNextRunAt e (r - 1) = some r := by
  unfold getNextRunAt at h
  cases hp : parseCronExpression e with
  | none => rw [hp] at h; cases h
  | some s =>
      rw [hp] at h
      obtain ⟨hm, hle, hmod⟩ := nextRunSearch_eq_some _ _ _ h
      have h1 : t < r := by omega
      have h2 : r % 60 = 0 := by omega
      refine ⟨h1, h2, ?_, ?_⟩
      · unfold matchesCronExpr
        rw [hp]
        exact hm
      · unfold getNextRunAt
        rw [hp]
        have hc : 60 * ((r - 1) / 60) + 60 = r := by omega
        rw [hc]
        have hfuel : maxSearchMinutes = 527039 + 1 := rfl
        rw [hfuel]
        exact nextRunSearch_head _ _ hm

/-- **C1, witness.**  The contract evaluated at `e = "* * * * *"`,
`t = 0`: the next run is `60`. -/
theorem c1_witness :
    0 < 60 ∧ 60 % 60 = 0 ∧ matchesCronExpr "* * * * *" 60 = true ∧
    getNextRunAt "* * * * *" (60 - 1) = some 60 :=
  c1_next_run_contract "* * * * *" 0 60 (by rfl)

/-! ## Claim C7 — day predicate and day-of-week normalization -/

/-- **C7.**  The day predicate follows classical cron semantics: both
fields `*` — every day matches; exactly one `*` — the other field
decides; neither `*` — union of the two matches.  The `*` flag is set
exactly when the stripped field is literally `"*"`, and a day-of-week
value of `7` is membership-equivalent to `0` after normalization (the
cron day-of-week itself is always in `0..6`). -/
theorem c7_day_predicate_semantics :
    (∀ (day cronDow : Nat) (domSet dowSet : List Nat),
        dayMatches day cronDow domSet dowSet true true = true ∧
        dayMatches day cronDow domSet dowSet true false = dowSet.contains cronDow ∧
        dayMatches day cronDow domSet dowSet false true = domSet.contains day ∧
        dayMatches day cronDow domSet dowSet false false =
          (domSet.contains day || dowSet.contains cronDow)) ∧
    (∀ (dowSet : List Nat) (x : Nat),
        x ∈ normalizeDowSet dowSet ↔ (x ∈ dowSet ∧ x ≠ 7) ∨ (x = 0 ∧ 7 ∈ dowSet)) ∧
    (∀ t : Nat, cronDowOf t < 7) ∧
    (∀ (f : List Char) (minimum maximum : Nat) (anyFlag : Bool) (vals : List Nat),
        parseCronField f minimum maximum = some (anyFlag, vals) →
          (anyFlag = true ↔ stripChars f = ['*'])) := by
  refine ⟨?_, ?_, ?_, ?_⟩
  · intro day cronDow domSet dowSet
    refine ⟨by simp [dayMatches], by simp [dayMatches], by simp [dayMatches],
      by simp [dayMatches]⟩
  · intro dowSet x
    unfold normalizeDowSet
    by_cases h7 : dowSet.contains 7 = true
    · have h7m : (7 : Nat) ∈ dowSet := by simpa using h7
      simp only [h7, if_true, List.mem_cons, List.mem_filter]
      constructor
      · rintro (rfl | ⟨hx, hne⟩)
        · exact Or.inr ⟨rfl, h7m⟩
        · exact Or.inl ⟨hx, by simpa using hne⟩
      · rintro (⟨hx, hne⟩ | ⟨rfl, _⟩)
        · exact Or.inr ⟨hx, by simpa using hne⟩
        · exact Or.inl rfl
    · have h7m : (7 : Nat) ∉ dowSet := by simpa using h7
      rw [if_neg h7]
      constructor
      · intro hx
        exact Or.inl ⟨hx, fun he => h7m (he ▸ hx)⟩
      · rintro (⟨hx, _⟩ | ⟨rfl, h7'⟩)
        · exact hx
        · exact absurd h7' h7m
  · intro t
    exact Nat.mod_lt _ (by norm_num)
  · intro f minimum maximum anyFlag vals h
    unfold parseCronField parseCronFieldStripped at h
    split_ifs at h with h1 h2
    · rw [Option.some_inj] at h
      have hAny : anyFlag = true := (congrArg Prod.fst h).symm
      simp [hAny, h2]
    · have hfalse : anyFlag = false := by
        cases hfold : (splitOnChar ',' (stripChars f)).foldlM
            (parseCronChunk minimum maximum) [] with
        | none =>
            rw [hfold] at h
            cases h
        | some values =>
            simp only [hfold] at h
            split_ifs at h with hv
            rw [Option.some_inj] at h
            exact (congrArg Prod.fst h).symm
      simp [hfalse, h2]

/-- **C7, witness.**  The union case at day 31 / Sunday with explicit
sets, and Sunday matching a `dowSet` that was written as `7`. -/
theorem c7_witness :
    dayMatches 31 0 [31] [5] false false = true ∧
    (0 : Nat) ∈ normalizeDowSet [7] :=
  ⟨((c7_day_predicate_semantics.1 31 0 [31] [5]).2.2.2).trans (by decide),
   (c7_day_predicate_semantics.2.1 [7] 0).mpr (Or.inr ⟨rfl, by decide⟩)⟩

/-! ## Claim C2 — lease-based claim protocol -/

/-- **C2, counterexample.**  With `lease_seconds = 0` the code clamps
the lease length to one second (`max(int(lease_seconds), 1)`): the claim
succeeds but sets `lease_expires_at = t + 1`, not `t + L = t`. -/
theorem c2_counterexample :
    (claimSchedule unleasedActiveRow 0 100).1.isSome = true ∧
    (claimSchedule unleasedActiveRow 0 100).2.lease_expires_at = some 101 ∧
    ¬ (claimSchedule unleasedActiveRow 0 100).2.lease_expires_at
        = some (100 + 0) := by
  refine ⟨by decide, by decide, by decide⟩

/-- **C2, amended.**  `claim_schedule` succeeds exactly when the row is
active and its lease is null or expired; on success it writes
`lease_expires_at = now + max(L, 1)` and returns the updated row; on
failure it changes nothing.  After a success at `now`, any claim
strictly before `now + max(L, 1)` fails (and changes nothing), and any
claim from `now + max(L, 1)` on succeeds again. -/
theorem c2_claim_protocol (s : ScheduleRow) (L now : Int) :
    ((claimSchedule s L now).1.isSome = true ↔
        s.is_active = true ∧
          (s.lease_expires_at = none ∨
            ∃ e, s.lease_expires_at = some e ∧ e ≤ now)) ∧
    ((claimSchedule s L now).1.isSome = true →
        (claimSchedule s L now).1 = some ((claimSchedule s L now).2) ∧
        (claimSchedule s L now).2
          = { s with lease_expires_at := some (now + max L 1) } ∧
        (∀ L2 t2 : Int, t2 < now + max L 1 →
            (claimSchedule { s with lease_expires_at := some (now + max L 1) }
                L2 t2).1 = none ∧
            (claimSchedule { s with lease_expires_at := some (now + max L 1) }
                L2 t2).2
              = { s with lease_expires_at := some (now + max L 1) }) ∧
        (∀ L2 t2 : Int, now + max L 1 ≤ t2 →
            (claimSchedule { s with lease_expires_at := some (now + max L 1) }
                L2 t2).1.isSome = true)) ∧
    ((claimSchedule s L now).1 = none → (claimSchedule s L now).2 = s) := by
  unfold claimSchedule
  by_cases ha : s.is_active = true
  · cases hl : s.lease_expires_at with
    | none =>
        simp only [ha, hl, Bool.true_and, if_true]
        refine ⟨by simp, ?_, by simp⟩
        intro _
        refine ⟨by simp, by simp, ?_, ?_⟩
        · intro L2 t2 h2
          have : ¬ (now + max L 1 ≤ t2) := by omega
          simp [this]
        · intro L2 t2 h2
          simp [h2]
    | some e =>
        by_cases he : e ≤ now
        · have hd : (decide (e ≤ now)) = true := by simp [he]
          simp only [ha, hl, hd, Bool.true_and, if_true]
          refine ⟨by simp [ha, hl, he], ?_, by simp⟩
          intro _
          refine ⟨by simp, by simp, ?_, ?_⟩
          · intro L2 t2 h2
            have : ¬ (now + max L 1 ≤ t2) := by omega
            simp [this]
          · intro L2 t2 h2
            simp [h2]
        · have hd : (decide (e ≤ now)) = false := by simp [he]
          simp only [ha, hl, hd, Bool.true_and, if_false]
          refine ⟨?_, ?_, by simp⟩
          · simp [hl, he]
          · intro hcontra
            simp at hcontra
  · have ha' : s.is_active = false := by
      cases h : s.is_active
      · rfl
      · exact absurd h ha
    simp only [ha', Bool.false_and, if_false]
    refine ⟨?_, ?_, by simp⟩
    · simp [ha']
    · intro hcontra
      simp at hcontra

/-- **C2, witness.**  A schedule claimed at `t = 50` with `L = 300`
cannot be claimed again at `t = 349`. -/
theorem c2_witness :
    (claimSchedule
        { unleasedActiveRow with lease_expires_at := some (50 + max (300 : Int) 1) }
        200 349).1 = none :=
  (((c2_claim_protocol unleasedActiveRow 300 50).2.1 (by decide)).2.2.1
    200 349 (by decide)).1

/-! ## Claim C3 — markFailed retry/backoff contract -/

/-- **C3, counterexample.**  With `retry_backoff_seconds = 0` (the field
admits zero) the code clamps the base to 1 (`max(int(base), 1)`), so the
stored `next_run_at` is `now + 1`, not `now + min(0·2⁰, 3600) = now`;
and `last_error` is the *stripped* message, not the message itself. -/
theorem c3_counterexample :
    (markScheduleFailed backoffZeroRow " boom " none 1000).2.next_run_at
        = some 1001 ∧
    ¬ (markScheduleFailed backoffZeroRow " boom " none 1000).2.next_run_at
        = some (1000 + (min (0 * 2 ^ 0) 3600 : Nat)) ∧
    (markScheduleFailed backoffZeroRow " boom " none 1000).2.last_error
        = "boom" ∧
    ¬ (markScheduleFailed backoffZeroRow " boom " none 1000).2.last_error
        = " boom " := by
  refine ⟨by decide, by decide, by decide, by decide⟩

/-- **C3, amended.**  `mark_schedule_failed` with `attempt = retry_count
+ 1`: while `attempt ≤ max_retries` it stores `retry_count = attempt`,
`next_run_at = now + min(max(base, 1)·2^(attempt−1), 3600)` and reports
`"retrying"`; otherwise it resets `retry_count = 0`, stores the supplied
next cron instant and reports `"next_cron"`.  In both branches
`last_error` is the error message stripped of surrounding whitespace and
truncated to 4000 characters, the lease is released, and `last_run_at`
is untouched. -/
theorem c3_mark_failed_contract (s : ScheduleRow) (err : String)
    (next : Option Int) (now : Int) :
    (s.retry_count + 1 ≤ s.max_retries →
        (markScheduleFailed s err next now).1.state = "retrying" ∧
        (markScheduleFailed s err next now).2.retry_count = s.retry_count + 1 ∧
        (markScheduleFailed s err next now).2.next_run_at
          = some (now + (min (max s.retry_backoff_seconds 1 * 2 ^ s.retry_count) 3600 : Nat)) ∧
        (markScheduleFailed s err next now).1.delay_seconds
          = min (max s.retry_backoff_seconds 1 * 2 ^ s.retry_count) 3600) ∧
    (s.max_retries < s.retry_count + 1 →
        (markScheduleFailed s err next now).1.state = "next_cron" ∧
        (markScheduleFailed s err next now).2.retry_count = 0 ∧
        (markScheduleFailed s err next now).2.next_run_at = next) ∧
    (markScheduleFailed s err next now).1.attempt = s.retry_count + 1 ∧
    (markScheduleFailed s err next now).2.last_error = stripTruncate4000 err ∧
    (markScheduleFailed s err next now).2.lease_expires_at = none ∧
    (markScheduleFailed s err next now).2.last_run_at = s.last_run_at := by
  unfold markScheduleFailed retryDelaySeconds
  by_cases hle : s.retry_count + 1 ≤ s.max_retries
  · rw [if_pos hle]
    refine ⟨?_, ?_, rfl, rfl, rfl, rfl⟩
    · intro _
      refine ⟨rfl, rfl, ?_, ?_⟩ <;> simp
    · intro hgt
      omega
  · rw [if_neg hle]
    refine ⟨?_, ?_, rfl, rfl, rfl, rfl⟩
    · intro hcontra
      omega
    · intro _
      exact ⟨rfl, rfl, rfl⟩

/-- **C3, witness.**  First failure with the default `base = 60`,
`max_retries = 3`: state `"retrying"` and a 60-second delay. -/
theorem c3_witness :
    (markScheduleFailed retryLadderRow "db down" none 500).1.state = "retrying" ∧
    (markScheduleFailed retryLadderRow "db down" none 500).2.next_run_at
        = some 560 := by
  have h := (c3_mark_failed_contract retryLadderRow "db down" none 500).1 (by decide)
  exact ⟨h.1, h.2.2.1.trans (by decide)⟩

/-! ## Claim C4 — due-schedule query -/

/-- **C4, counterexample.**  Two due schedules, the earlier-created one
with the earlier `next_run_at`: the queryset order comes from the model
default `Meta.ordering = ["-created_at"]` (no `order_by` in
`get_due_schedules`), so the later-created row comes first and the
output is *not* sorted by ascending `next_run_at`. -/
theorem c4_counterexample :
    isDue 100 rowA = true ∧ isDue 100 rowB = true ∧
    getDueSchedules 100 [rowA, rowB] = [rowB, rowA] ∧
    sortedByNextRunAscSpec (getDueSchedules 100 [rowA, rowB]) = false := by
  refine ⟨by decide, by decide, by decide, by decide⟩

/-- **C4, amended.**  `get_due_schedules` returns exactly the rows
satisfying `is_active ∧ (next_run_at ≤ now ∨ null) ∧ (lease_expires_at ≤
now ∨ null)`, ordered by *descending* `created_at` (the model's default
ordering), not by ascending `next_run_at`. -/
theorem c4_due_schedules (now : Int) (rows : List ScheduleRow) :
    (∀ s, s ∈ getDueSchedules now rows ↔ s ∈ rows ∧ isDue now s = true) ∧
    List.Sorted createdDescOrder (getDueSchedules now rows) := by
  constructor
  · intro s
    unfold getDueSchedules
    rw [List.Perm.mem_iff (List.perm_insertionSort _ _)]
    simp [List.mem_filter]
  · unfold getDueSchedules
    haveI : IsTotal ScheduleRow createdDescOrder :=
      ⟨fun a b => le_total b.created_at a.created_at⟩
    haveI : IsTrans ScheduleRow createdDescOrder :=
      ⟨fun _ _ _ hab hbc => le_trans hbc hab⟩
    exact List.sorted_insertionSort _ _

/-- **C4, witness.**  `rowA` is in the due set at `now = 100`. -/
theorem c4_witness :
    rowA ∈ getDueSchedules 100 [rowA, rowB] :=
  ((c4_due_schedules 100 [rowA, rowB]).1 rowA).mpr ⟨by decide, by decide⟩

/-! ## Claim C5 — secret redaction of persisted parameter mappings -/

theorem mem_optEntry {kv : String × PValue} {key : String} {v : Option String}
    (h : kv ∈ optEntry key v) :
    kv.1 = key ∧ ∃ str, v = some str ∧ str ≠ "" ∧ kv.2 = PValue.s str := by
  cases v with
  | none => simp [optEntry] at h
  | some str =>
      by_cases hs : str = ""
      · simp [optEntry, hs] at h
      · simp [optEntry, hs] at h
        exact ⟨by rw [h], str, rfl, hs, by rw [h]⟩

theorem buildConnectionParams_mem {o : ConnOptions} {kv : String × PValue}
    (h : kv ∈ buildConnectionParams o) :
    kv.1 ∈ ["path", "host", "port", "username", "password", "database", "uri"] := by
  unfold buildConnectionParams at h
  simp only [List.mem_append] at h
  rcases h with ((((((h | h) | h) | h) | h) | h) | h)
  · simp [(mem_optEntry h).1]
  · simp [(mem_optEntry h).1]
  · cases hp : o.port with
    | none => rw [hp] at h; cases h
    | some n =>
        rw [hp] at h
        simp at h
        simp [h]
  · simp [(mem_optEntry h).1]
  · simp [(mem_optEntry h).1]
  · simp [(mem_optEntry h).1]
  · simp [(mem_optEntry h).1]

theorem buildConnectionParams_sensitive {o : ConnOptions} {kv : String × PValue}
    (h : kv ∈ buildConnectionParams o) (hs : kv.1 ∈ sensitiveKeys) :
    kv.2.truthy = true ∧ (kv.1 = "password" ∨ kv.1 = "uri") := by
  unfold buildConnectionParams at h
  simp only [List.mem_append] at h
  rcases h with ((((((h | h) | h) | h) | h) | h) | h)
  · rw [(mem_optEntry h).1] at hs; simp [sensitiveKeys] at hs
  · rw [(mem_optEntry h).1] at hs; simp [sensitiveKeys] at hs
  · cases hp : o.port with
    | none => rw [hp] at h; cases h
    | some n =>
        rw [hp] at h
        simp at h
        rw [congrArg Prod.fst h] at hs
        simp [sensitiveKeys] at hs
  · rw [(mem_optEntry h).1] at hs; simp [sensitiveKeys] at hs
  · obtain ⟨h1, str, _, hne, h2⟩ := mem_optEntry h
    exact ⟨by simp [h2, PValue.truthy, hne], Or.inl h1⟩
  · rw [(mem_optEntry h).1] at hs; simp [sensitiveKeys] at hs
  · obtain ⟨h1, str, _, hne, h2⟩ := mem_optEntry h
    exact ⟨by simp [h2, PValue.truthy, hne], Or.inr h1⟩

theorem mem_redactKeys {ks : List String} {params : List (String × PValue)}
    {kv : String × PValue} (h : kv ∈ redactKeys ks params) :
    ∃ v0, (kv.1, v0) ∈ params ∧
      ((ks.contains kv.1 && v0.truthy) = true ∧ kv.2 = PValue.s "***" ∨
       (ks.contains kv.1 && v0.truthy) = false ∧ kv.2 = v0) := by
  unfold redactKeys at h
  rw [List.mem_map] at h
  obtain ⟨kv0, hmem, heq⟩ := h
  by_cases hc : (ks.contains kv0.1 && kv0.2.truthy) = true
  · rw [if_pos hc] at heq
    subst heq
    exact ⟨kv0.2, by simpa using hmem, Or.inl ⟨hc, rfl⟩⟩
  · rw [if_neg hc] at heq
    subst heq
    exact ⟨kv0.2, by simpa using hmem,
      Or.inr ⟨by simpa using hc, rfl⟩⟩

/-- **C5.**  Every mapping persisted by the backup command
(`BackupJob.connection_params`) or the restore command
(`RestoreJob.target_params`) stores `"***"` for every present field
whose key is one of `password, uri, token, secret,
azure_connection_string`, and carries every other field over
unchanged from the built connection params. -/
theorem c5_redaction (o : ConnOptions) (dbType : String) (k : String)
    (v : PValue) :
    (((k, v) ∈ persistedBackupConnectionParams o) →
        (k ∈ sensitiveKeys → v = PValue.s "***") ∧
        (k ∉ sensitiveKeys → (k, v) ∈ buildConnectionParams o)) ∧
    (((k, v) ∈ persistedRestoreTargetParams o dbType) →
        (k ∈ sensitiveKeys → v = PValue.s "***") ∧
        (k ∉ sensitiveKeys → (k, v) ∈ restoreConnectionParams o dbType)) := by
  constructor
  · intro h
    obtain ⟨v0, hmem, hcase⟩ := mem_redactKeys h
    constructor
    · intro hk
      rcases hcase with ⟨_, hv⟩ | ⟨hc, _⟩
      · exact hv
      · exfalso
        have ht : v0.truthy = true := (buildConnectionParams_sensitive hmem hk).1
        have hc' : (sensitiveKeys.contains k && v0.truthy) = false := hc
        rw [ht, Bool.and_true] at hc'
        have hcont : sensitiveKeys.contains k = true := by simpa using hk
        rw [hcont] at hc'
        simp at hc'
    · intro hk
      rcases hcase with ⟨hc, _⟩ | ⟨_, hv⟩
      · exfalso
        have hc' : (sensitiveKeys.contains k && v0.truthy) = true := hc
        exact hk (by simpa using Bool.and_elim_left hc')
      · have hvv : v = v0 := hv
        rw [hvv]
        exact hmem
  · intro h
    obtain ⟨v0, hmem, hcase⟩ := mem_redactKeys h
    constructor
    · intro hk
      rcases hcase with ⟨_, hv⟩ | ⟨hc, _⟩
      · exact hv
      · exfalso
        unfold restoreConnectionParams at hmem
        rw [List.mem_append] at hmem
        rcases hmem with hmem | hmem
        · have ht : v0.truthy = true := (buildConnectionParams_sensitive hmem hk).1
          have hc' : ((["password", "uri", "token", "secret"] : List String).contains k
              && v0.truthy) = false := hc
          rw [ht, Bool.and_true] at hc'
          rcases (buildConnectionParams_sensitive hmem hk).2 with h1 | h1
          · have h1' : k = "password" := h1
            rw [h1'] at hc'
            exact absurd hc' (by decide)
          · have h1' : k = "uri" := h1
            rw [h1'] at hc'
            exact absurd hc' (by decide)
        · by_cases hdb : dbType = "sqlite"
          · rw [if_pos hdb] at hmem
            simp at hmem
            rw [hmem.1] at hk
            simp [sensitiveKeys] at hk
          · rw [if_neg hdb] at hmem
            cases hmem
    · intro hk
      rcases hcase with ⟨hc, _⟩ | ⟨_, hv⟩
      · exfalso
        have hc' : ((["password", "uri", "token", "secret"] : List String).contains k
            && v0.truthy) = true := hc
        have hmem4 : k = "password" ∨ k = "uri" ∨ k = "token" ∨ k = "secret" := by
          simpa using Bool.and_elim_left hc'
        apply hk
        rcases hmem4 with rfl | rfl | rfl | rfl <;> decide
      · have hvv : v = v0 := hv
        rw [hvv]
        exact hmem

/-- **C5, witness.**  A non-sensitive field survives redaction: the
persisted backup params of concrete options keep `("host", "h")`. -/
theorem c5_witness :
    ("host", PValue.s "h") ∈ buildConnectionParams sampleConnOptions :=
  ((c5_redaction sampleConnOptions "sqlite" "host" (PValue.s "h")).1
    (by decide)).2 (by decide)

/-! ## Claim C6 — backup-type fallback policy -/

/-- **C6, counterexample.**  All four adapters inherit
`supports_incremental = False` and `fallback_incremental_to_full =
True`, yet `MySQLAdapter.backup` and `MongoAdapter.backup` reject any
non-`full` request outright instead of silently downgrading. -/
theorem c6_counterexample :
    defaultAdapterFlags.supports_incremental = false ∧
    defaultAdapterFlags.fallback_incremental_to_full = true ∧
    mysqlBackupTypeGate "incremental"
      = .error "MySQL adapter currently supports only full backup." ∧
    mongoBackupTypeGate "incremental"
      = .error "MongoDB adapter currently supports only full backup." :=
  ⟨rfl, rfl, rfl, rfl⟩

/-- **C6, amended.**  The base-class policy behaves as the claim says:
an unsupported type with the fallback flag set downgrades to `"full"`,
and with the flag cleared it is rejected up-front.  The SQLite and
PostgreSQL backup entry points follow that policy; the MySQL and
MongoDB backup entry points instead reject every non-`full` type even
though their fallback flags are set. -/
theorem c6_backup_type_policy (f : AdapterFlags) (bt : String) :
    ((bt = "incremental" ∧ f.supports_incremental = false ∧
        f.fallback_incremental_to_full = true) →
      effectiveBackupType f bt = .ok "full") ∧
    ((bt = "incremental" ∧ f.supports_incremental = false ∧
        f.fallback_incremental_to_full = false) →
      ∃ e, effectiveBackupType f bt = .error e) ∧
    ((bt = "differential" ∧ f.supports_differential = false ∧
        f.fallback_differential_to_full = true) →
      effectiveBackupType f bt = .ok "full") ∧
    ((bt = "differential" ∧ f.supports_differential = false ∧
        f.fallback_differential_to_full = false) →
      ∃ e, effectiveBackupType f bt = .error e) ∧
    sqliteBackupTypeGate bt = effectiveBackupType defaultAdapterFlags bt ∧
    postgresBackupTypeGate bt = effectiveBackupType defaultAdapterFlags bt ∧
    ((bt = "incremental" ∨ bt = "differential") →
      (∃ e, mysqlBackupTypeGate bt = .error e) ∧
      (∃ e, mongoBackupTypeGate bt = .error e)) := by
  refine ⟨?_, ?_, ?_, ?_, rfl, rfl, ?_⟩
  · rintro ⟨rfl, h1, h2⟩
    simp [effectiveBackupType, validateBackupType, h1, h2]
  · rintro ⟨rfl, h1, h2⟩
    refine ⟨"incremental not supported", ?_⟩
    simp [effectiveBackupType, validateBackupType, h1, h2]
  · rintro ⟨rfl, h1, h2⟩
    simp [effectiveBackupType, validateBackupType, h1, h2]
  · rintro ⟨rfl, h1, h2⟩
    refine ⟨"differential not supported", ?_⟩
    simp [effectiveBackupType, validateBackupType, h1, h2]
  · rintro (rfl | rfl)
    · exact ⟨⟨"MySQL adapter currently supports only full backup.", rfl⟩,
        ⟨"MongoDB adapter currently supports only full backup.", rfl⟩⟩
    · exact ⟨⟨"MySQL adapter currently supports only full backup.", rfl⟩,
        ⟨"MongoDB adapter currently supports only full backup.", rfl⟩⟩

/-- **C6, witness.**  An incremental request on the shared flag set
downgrades to a full backup. -/
theorem c6_witness :
    effectiveBackupType defaultAdapterFlags "incremental" = .ok "full" :=
  (c6_backup_type_policy defaultAdapterFlags "incremental").1 ⟨rfl, rfl, rfl⟩

/-! ## Claim C8 — dry-run frame conditions -/

/-- **C8.**  A claimed schedule processed with `--dry-run` keeps
`last_run_at`, `next_run_at` and `retry_count` unchanged and ends with
its lease released, on both the valid-cron and the invalid-cron path. -/
theorem c8_dry_run_frame (s : ScheduleRow) (now : Nat) :
    (runScheduleDryRun s now).last_run_at = s.last_run_at ∧
    (runScheduleDryRun s now).next_run_at = s.next_run_at ∧
    (runScheduleDryRun s now).retry_count = s.retry_count ∧
    (runScheduleDryRun s now).lease_expires_at = none := by
  unfold runScheduleDryRun
  cases getNextRunAt s.cron_expression now <;> exact ⟨rfl, rfl, rfl, rfl⟩

/-! ## Claim C9 — restore-self protection -/

/-- **C9.**  When the resolved SQLite target equals the metadata-store
path, `restore_db.Command.handle` never creates a `RestoreJob`; on every
other invocation that resolves a backup source, the `RestoreJob` row is
the first observable action, before any adapter step runs. -/
theorem c9_restore_self_protection (resolve : String → String)
    (st : RestoreSettings) (dbType : String) (paramsPath : Option String)
    (sourceResolved : Bool) (stepsReached : Nat) :
    (isRestoringMetadataDb resolve st dbType paramsPath = true →
        RestoreEvent.createdRestoreJob ∉
          restoreHandleTrace sourceResolved
            (isRestoringMetadataDb resolve st dbType paramsPath) stepsReached) ∧
    (sourceResolved = true →
        isRestoringMetadataDb resolve st dbType paramsPath = false →
        (restoreHandleTrace sourceResolved
            (isRestoringMetadataDb resolve st dbType paramsPath)
            stepsReached).head? = some RestoreEvent.createdRestoreJob) := by
  constructor
  · intro hmeta hmem
    unfold restoreHandleTrace at hmem
    rw [hmeta] at hmem
    cases sourceResolved with
    | false => simp at hmem
    | true =>
        simp at hmem
        have := List.mem_of_mem_take hmem
        simp at this
  · intro hres hmeta
    unfold restoreHandleTrace
    rw [hres, hmeta]
    simp

/-- **C9, witness.**  With the target defaulting to the metadata
database itself, the trace of a resolved invocation contains no
`RestoreJob` creation. -/
theorem c9_witness :
    RestoreEvent.createdRestoreJob ∉
      restoreHandleTrace true
        (isRestoringMetadataDb (fun p => p) sampleRestoreSettings "sqlite" none)
        2 :=
  (c9_restore_self_protection (fun p => p) sampleRestoreSettings "sqlite"
    none true 2).1 (by decide)

/-! ## Claim C10 — SQLite restore failure atomicity -/

/-- **C10.**  For an existing backup file at a path distinct from the
target: a failed page copy raises `AdapterError`, removes the temporary
file and leaves the target unchanged; the target's contents change only
after a fully successful copy, and then they equal the backup's. -/
theorem c10_sqlite_restore_atomicity (fs : SqliteFsState) (c : String)
    (copyOk : Bool) (hb : fs.backupFile = some c) :
    ((sqliteRestore fs false false).adapterError = some "SQLite restore failed" ∧
     (sqliteRestore fs false false).fs.tmpFile = none ∧
     (sqliteRestore fs false false).fs.targetFile = fs.targetFile) ∧
    ((sqliteRestore fs false copyOk).fs.targetFile ≠ fs.targetFile →
        copyOk = true ∧
        (sqliteRestore fs false copyOk).fs.targetFile = fs.backupFile) := by
  unfold sqliteRestore
  rw [hb]
  constructor
  · exact ⟨rfl, rfl, rfl⟩
  · cases copyOk with
    | false => intro hne; exact absurd rfl hne
    | true => intro _; exact ⟨rfl, rfl⟩

/-- **C10, witness.**  On a concrete file system, the failing copy
leaves the old target bytes in place and no temporary file behind. -/
theorem c10_witness :
    (sqliteRestore sampleSqliteFs false false).fs.targetFile = some "old-bytes" ∧
    (sqliteRestore sampleSqliteFs false false).fs.tmpFile = none := by
  have h := c10_sqlite_restore_atomicity sampleSqliteFs "backup-bytes" false (by decide)
  exact ⟨(h.1.2.2).trans (by decide), h.1.2.1⟩
